import Mathlib

/-!
Shallow embedding of `force-app/main/default/lwc/commissionCreator/commissionCreator.js`
(the CommissionCreator Lightning Web Component).

Numeric values (margins, percentages, amounts) are embedded as `Rat`.
JavaScript `undefined`-able fields are embedded as `Option _`; the JS
falsy-coalescing `x || d` is embedded by `jsOrRat` / `jsOrString`, which
also treat `0` / `""` as absent, exactly as `||` does.  String identifiers
stay `String`; the cell id is the literal concatenation
`lineItemId ++ "-" ++ userId`, as built by the template string in the source.
-/

namespace CommissionCreator

/-- Embedding of JS `x || d` for a possibly-undefined number: `0`, like
`undefined`, falls through to the default. -/
def jsOrRat (x : Option ℚ) (d : ℚ) : ℚ :=
  match x with
  | some v => if v = 0 then d else v
  | none => d

/-- Embedding of JS `x || d` for a possibly-undefined string: `""`, like
`undefined`, falls through to the default. -/
def jsOrString (x : Option String) (d : String) : String :=
  match x with
  | some s => if s = "" then d else s
  | none => d

/-- One opportunity line item, as consumed from the Apex response
(`lineItem.Id`, `lineItem.Name`, `lineItem.Product2?.Name`,
`lineItem.Line_Margin__c`). -/
structure LineItem where
  Id : String
  Name : String
  Product2Name : Option String
  Line_Margin__c : Option ℚ
deriving DecidableEq

/-- One opportunity team member, as consumed from the Apex response
(`teamMember.userId`, `.name`, `.role`, `.defaultRate`). -/
structure TeamMember where
  userId : String
  name : String
  role : String
  defaultRate : Option ℚ
deriving DecidableEq

/-- One previously persisted commission record
(`comm.Id`, `comm.OpportunityLineItem__c`, `comm.User__c`,
`comm.Commission_Percentage__c`). -/
structure ExistingCommissionRecord where
  Id : String
  OpportunityLineItem__c : String
  User__c : String
  Commission_Percentage__c : Option ℚ
deriving DecidableEq

/-- One matrix cell, exactly the object literal built in `initializeMatrix`. -/
structure Cell where
  id : String
  lineItemId : String
  userId : String
  lineItemName : String
  teamMemberName : String
  teamMemberRole : String
  lineMargin : ℚ
  selected : Bool
  percentage : ℚ
  defaultPercentage : ℚ
  amount : ℚ
  existingCommissionId : Option String
deriving DecidableEq

/-- `findExistingCommission(lineItemId, userId)`: first stored record whose
`OpportunityLineItem__c` and `User__c` match. -/
def findExistingCommission (existingCommissions : List ExistingCommissionRecord)
    (lineItemId userId : String) : Option ExistingCommissionRecord :=
  existingCommissions.find? fun comm =>
    comm.OpportunityLineItem__c == lineItemId && comm.User__c == userId

/-- The body of the double `forEach` in `initializeMatrix`: build the cell for
one (lineItem, teamMember) pair against the stored records. -/
def initCell (existingCommissions : List ExistingCommissionRecord)
    (lineItem : LineItem) (teamMember : TeamMember) : Cell :=
  let existingCommission := findExistingCommission existingCommissions lineItem.Id teamMember.userId
  let percentageValue : ℚ :=
    match existingCommission with
    | some comm =>
      match comm.Commission_Percentage__c with
      | some commissionPercentage =>
        if commissionPercentage ≤ 1 then commissionPercentage * 100 else commissionPercentage
      | none => jsOrRat teamMember.defaultRate 0
    | none => jsOrRat teamMember.defaultRate 0
  { id := lineItem.Id ++ "-" ++ teamMember.userId
    lineItemId := lineItem.Id
    userId := teamMember.userId
    lineItemName := jsOrString lineItem.Product2Name lineItem.Name
    teamMemberName := teamMember.name
    teamMemberRole := teamMember.role
    lineMargin := jsOrRat lineItem.Line_Margin__c 0
    selected := (findExistingCommission existingCommissions lineItem.Id teamMember.userId).isSome
    percentage := percentageValue
    defaultPercentage := jsOrRat teamMember.defaultRate 0
    amount := 0
    existingCommissionId :=
      match existingCommission with
      | some comm => if comm.Id = "" then none else some comm.Id
      | none => none }

/-- The matrix built by `initializeMatrix` before `calculateTotals` runs:
one cell per (lineItem, teamMember) pair of the cross product, in the
nested-`forEach` push order. -/
def initializeMatrix (lineItems : List LineItem) (teamMembers : List TeamMember)
    (existingCommissions : List ExistingCommissionRecord) : List Cell :=
  lineItems.flatMap fun lineItem =>
    teamMembers.map fun teamMember => initCell existingCommissions lineItem teamMember

/-- The per-cell amount rule of `calculateTotals`:
`cell.selected ? cell.lineMargin * (cell.percentage / 100) : 0`. -/
def cellAmount (cell : Cell) : ℚ :=
  if cell.selected then cell.lineMargin * (cell.percentage / 100) else 0

/-- `calculateTotals()`: walks the matrix, rewrites every cell's `amount`,
and accumulates `totalCommissions` (count of selected cells) and
`totalAmount` (sum of selected amounts).  Returns
(new matrix, totalCommissions, totalAmount). -/
def calculateTotals : List Cell → List Cell × ℕ × ℚ
  | [] => ([], 0, 0)
  | cell :: rest =>
    let amount := cellAmount cell
    let r := calculateTotals rest
    ({ cell with amount := amount } :: r.1,
     (if cell.selected then r.2.1 + 1 else r.2.1),
     (if cell.selected then r.2.2 + amount else r.2.2))

/-- Rewrite one cell's `amount` by the `calculateTotals` rule. -/
def updAmount (cell : Cell) : Cell :=
  { cell with amount := cellAmount cell }

theorem calculateTotals_fst (m : List Cell) :
    (calculateTotals m).1 = m.map updAmount := by
  induction m with
  | nil => rfl
  | cons c rest ih => simp [calculateTotals, updAmount, ih]

theorem calculateTotals_count (m : List Cell) :
    (calculateTotals m).2.1 = m.countP (fun c => c.selected) := by
  induction m with
  | nil => rfl
  | cons c rest ih =>
    simp only [calculateTotals, List.countP_cons]
    by_cases h : c.selected <;> simp [h, ih]

theorem calculateTotals_sum (m : List Cell) :
    (calculateTotals m).2.2 =
      (((calculateTotals m).1.filter fun c => c.selected).map fun c => c.amount).sum := by
  induction m with
  | nil => rfl
  | cons c rest ih =>
    simp only [calculateTotals]
    by_cases h : c.selected <;>
      simp [h, List.filter_cons, updAmount, ih, add_comm]

/-- The component fields the matrix engine reads and writes:
`opportunityData.lineItems` / `.teamMembers`, `matrixData`,
`existingCommissions`, `hasExistingCommissions`, `totalCommissions`,
`totalAmount`, `showDuplicateOptions`. -/
structure ComponentState where
  lineItems : List LineItem
  teamMembers : List TeamMember
  matrixData : List Cell
  existingCommissions : List ExistingCommissionRecord
  hasExistingCommissions : Bool
  totalCommissions : ℕ
  totalAmount : ℚ
  showDuplicateOptions : Bool
deriving DecidableEq

/-- The common tail of every mutation handler:
`this.matrixData = newMatrix; this.calculateTotals();`. -/
def setMatrixAndTotals (s : ComponentState) (newMatrix : List Cell) : ComponentState :=
  let r := calculateTotals newMatrix
  { s with matrixData := r.1, totalCommissions := r.2.1, totalAmount := r.2.2 }

/-- `initializeMatrix()` as a state update: rebuild the matrix from the loaded
line items, team members and stored records, run `calculateTotals`, and clear
`showDuplicateOptions`. -/
def initializeMatrixState (s : ComponentState) : ComponentState :=
  let matrix := initializeMatrix s.lineItems s.teamMembers s.existingCommissions
  { setMatrixAndTotals s matrix with showDuplicateOptions := false }

/-- The `matrixData.map` of `handleCheckboxChange`: flip `selected` on the
cell whose `id` equals the template string `lineItemId ++ "-" ++ userId`. -/
def toggleCellStep (lineItemId userId : String) (isChecked : Bool)
    (matrixData : List Cell) : List Cell :=
  let cellId := lineItemId ++ "-" ++ userId
  matrixData.map fun cell =>
    if cell.id = cellId then { cell with selected := isChecked } else cell

/-- `handleCheckboxChange`: early-return when either id attribute is missing
(empty), otherwise apply `toggleCellStep` and recompute totals. -/
def handleCheckboxChange (lineItemId userId : String) (isChecked : Bool)
    (s : ComponentState) : ComponentState :=
  if lineItemId = "" ∨ userId = "" then s
  else setMatrixAndTotals s (toggleCellStep lineItemId userId isChecked s.matrixData)

/-- The `matrixData.map` of `handlePercentageChange`: overwrite `percentage`
on the cell whose `id` matches. -/
def setPercentageStep (lineItemId userId : String) (percentageInput : ℚ)
    (matrixData : List Cell) : List Cell :=
  let cellId := lineItemId ++ "-" ++ userId
  matrixData.map fun cell =>
    if cell.id = cellId then { cell with percentage := percentageInput } else cell

/-- `handlePercentageChange`: early-return on missing id attributes, otherwise
apply `setPercentageStep` and recompute totals.  `percentageInput` stands for
`parseFloat(event.target.value) || 0`, already on the 0-100 scale. -/
def handlePercentageChange (lineItemId userId : String) (percentageInput : ℚ)
    (s : ComponentState) : ComponentState :=
  if lineItemId = "" ∨ userId = "" then s
  else setMatrixAndTotals s (setPercentageStep lineItemId userId percentageInput s.matrixData)

/-- The `matrixData.map` of `handleSelectAllForLineItem`: for every cell of
the line item set `selected`; when selecting a cell whose `percentage` is
exactly 0, also apply its `defaultPercentage`. -/
def selectAllForLineItemStep (lineItemId : String) (isChecked : Bool)
    (matrixData : List Cell) : List Cell :=
  matrixData.map fun cell =>
    if cell.lineItemId = lineItemId then
      if isChecked ∧ cell.percentage = 0 then
        { cell with selected := isChecked, percentage := cell.defaultPercentage }
      else { cell with selected := isChecked }
    else cell

/-- `handleSelectAllForLineItem`: early-return on a missing line-item id,
otherwise apply `selectAllForLineItemStep` and recompute totals. -/
def handleSelectAllForLineItem (lineItemId : String) (isChecked : Bool)
    (s : ComponentState) : ComponentState :=
  if lineItemId = "" then s
  else setMatrixAndTotals s (selectAllForLineItemStep lineItemId isChecked s.matrixData)

/-- The `matrixData.map` of `handleSelectAllForTeamMember`: for every cell of
the user set `selected`; when selecting, always overwrite `percentage` with
the cell's `defaultPercentage`. -/
def selectAllForTeamMemberStep (userId : String) (isChecked : Bool)
    (matrixData : List Cell) : List Cell :=
  matrixData.map fun cell =>
    if cell.userId = userId then
      if isChecked then
        { cell with selected := isChecked, percentage := cell.defaultPercentage }
      else { cell with selected := isChecked }
    else cell

/-- `handleSelectAllForTeamMember`: early-return on a missing user id,
otherwise apply `selectAllForTeamMemberStep` and recompute totals. -/
def handleSelectAllForTeamMember (userId : String) (isChecked : Bool)
    (s : ComponentState) : ComponentState :=
  if userId = "" then s
  else setMatrixAndTotals s (selectAllForTeamMemberStep userId isChecked s.matrixData)

/-- `handleDeleteAndRecreate`, with the outcome of the awaited
`deleteExistingCommissions` call made explicit: on success the stored records
are cleared and the matrix is rebuilt (then a success toast is shown); on a
rejected call only an error toast is shown and the state is left as it was. -/
def handleDeleteAndRecreate (deleteSucceeded : Bool) (s : ComponentState) : ComponentState :=
  if deleteSucceeded then
    initializeMatrixState
      { s with existingCommissions := [], hasExistingCommissions := false }
  else s

/-- The projected shape sent to Apex by `handleGenerateCommissions`:
`{lineItemId, userId, selected, percentage, amount}`. -/
structure ApexCell where
  lineItemId : String
  userId : String
  selected : Bool
  percentage : ℚ
  amount : ℚ
deriving DecidableEq

/-- Project one selected cell into the Apex shape. -/
def toApexCell (cell : Cell) : ApexCell :=
  { lineItemId := cell.lineItemId
    userId := cell.userId
    selected := cell.selected
    percentage := cell.percentage
    amount := cell.amount }

/-- Outcome of `handleGenerateCommissions` up to the backend call: either the
zero-selection validation error toast (no call made), or the list of
projected cells passed to `createUpdateCommissions`. -/
inductive SubmitAction where
  | validationError : SubmitAction
  | submit : List ApexCell → SubmitAction
deriving DecidableEq

/-- `handleGenerateCommissions`: filter the matrix to the selected cells;
with none selected, surface the validation error and make no backend call;
otherwise send the projected selected cells, in matrix order. -/
def handleGenerateCommissions (matrixData : List Cell) : SubmitAction :=
  let selectedCells := matrixData.filter fun cell => cell.selected
  if selectedCells.length = 0 then SubmitAction.validationError
  else SubmitAction.submit (selectedCells.map toApexCell)

/-- The settled-grid invariant of §3/§4.3 of the spec: every cell's `amount`
follows the `selected ? margin * percentage/100 : 0` rule,
`totalCommissions` counts the selected cells and `totalAmount` sums their
amounts. -/
def IsSettled (s : ComponentState) : Prop :=
  (∀ c ∈ s.matrixData,
      c.amount = if c.selected then c.lineMargin * (c.percentage / 100) else 0) ∧
  s.totalCommissions = s.matrixData.countP (fun c => c.selected) ∧
  s.totalAmount = ((s.matrixData.filter fun c => c.selected).map fun c => c.amount).sum

theorem setMatrixAndTotals_matrixData (s : ComponentState) (m : List Cell) :
    (setMatrixAndTotals s m).matrixData = (calculateTotals m).1 := rfl

theorem setMatrixAndTotals_totalCommissions (s : ComponentState) (m : List Cell) :
    (setMatrixAndTotals s m).totalCommissions = (calculateTotals m).2.1 := rfl

theorem setMatrixAndTotals_totalAmount (s : ComponentState) (m : List Cell) :
    (setMatrixAndTotals s m).totalAmount = (calculateTotals m).2.2 := rfl

theorem isSettled_setMatrixAndTotals (s : ComponentState) (m : List Cell) :
    IsSettled (setMatrixAndTotals s m) := by
  refine ⟨?_, ?_, ?_⟩
  · intro c hc
    rw [setMatrixAndTotals_matrixData, calculateTotals_fst] at hc
    obtain ⟨c₀, _, rfl⟩ := List.mem_map.mp hc
    simp [updAmount, cellAmount]
  · rw [setMatrixAndTotals_totalCommissions, setMatrixAndTotals_matrixData,
      calculateTotals_count, calculateTotals_fst, List.countP_map]
    rfl
  · rw [setMatrixAndTotals_totalAmount, setMatrixAndTotals_matrixData,
      calculateTotals_sum]

theorem isSettled_initializeMatrixState (s : ComponentState) :
    IsSettled (initializeMatrixState s) :=
  isSettled_setMatrixAndTotals s
    (initializeMatrix s.lineItems s.teamMembers s.existingCommissions)

/-- C1: after initial reconciliation and after every mutation
(toggleCell, setPercentage, selectAllForLineItem, selectAllForTeamMember —
each handler ends with an immediate `calculateTotals` pass), every cell's
`amount` equals `lineMargin * percentage / 100` when selected and `0`
otherwise, `totalCommissions` (the spec's totalSelectedCount) equals the
number of selected cells, and `totalAmount` equals the sum of the selected
cells' amounts.  The nonemptiness hypotheses discharge the handlers' missing
data-attribute guards, under which the handlers change nothing. -/
theorem C1_mutations_settle_totals (s : ComponentState) (l u : String) (b : Bool) (v : ℚ)
    (hl : l ≠ "") (hu : u ≠ "") :
    IsSettled (initializeMatrixState s) ∧
    IsSettled (handleCheckboxChange l u b s) ∧
    IsSettled (handlePercentageChange l u v s) ∧
    IsSettled (handleSelectAllForLineItem l b s) ∧
    IsSettled (handleSelectAllForTeamMember u b s) := by
  refine ⟨isSettled_initializeMatrixState s, ?_, ?_, ?_, ?_⟩
  · rw [handleCheckboxChange, if_neg (by simp [hl, hu])]
    exact isSettled_setMatrixAndTotals _ _
  · rw [handlePercentageChange, if_neg (by simp [hl, hu])]
    exact isSettled_setMatrixAndTotals _ _
  · rw [handleSelectAllForLineItem, if_neg hl]
    exact isSettled_setMatrixAndTotals _ _
  · rw [handleSelectAllForTeamMember, if_neg hu]
    exact isSettled_setMatrixAndTotals _ _

theorem C1_mutations_settle_totals_witness :
    ("L1" : String) ≠ "" ∧ ("U1" : String) ≠ "" ∧
    (IsSettled (initializeMatrixState
        ⟨[⟨"L1", "Widget", none, some 1000⟩], [⟨"U1", "Ann", "AE", some 10⟩],
         [], [], false, 0, 0, false⟩) ∧
     IsSettled (handleCheckboxChange "L1" "U1" true
        ⟨[⟨"L1", "Widget", none, some 1000⟩], [⟨"U1", "Ann", "AE", some 10⟩],
         [], [], false, 0, 0, false⟩) ∧
     IsSettled (handlePercentageChange "L1" "U1" 5
        ⟨[⟨"L1", "Widget", none, some 1000⟩], [⟨"U1", "Ann", "AE", some 10⟩],
         [], [], false, 0, 0, false⟩) ∧
     IsSettled (handleSelectAllForLineItem "L1" true
        ⟨[⟨"L1", "Widget", none, some 1000⟩], [⟨"U1", "Ann", "AE", some 10⟩],
         [], [], false, 0, 0, false⟩) ∧
     IsSettled (handleSelectAllForTeamMember "U1" true
        ⟨[⟨"L1", "Widget", none, some 1000⟩], [⟨"U1", "Ann", "AE", some 10⟩],
         [], [], false, 0, 0, false⟩)) :=
  ⟨by decide, by decide,
   C1_mutations_settle_totals _ "L1" "U1" true 5 (by decide) (by decide)⟩

theorem calculateTotals_map_updAmount (m : List Cell) :
    calculateTotals (m.map updAmount) = calculateTotals m := by
  induction m with
  | nil => rfl
  | cons c rest ih => simp [calculateTotals, updAmount, cellAmount, ih]

/-- C9: the Totals Aggregator is idempotent (and, being a pure function,
deterministic): running `calculateTotals` on its own output grid returns the
same grid, the same selected count, and the same total amount as one run. -/
theorem C9_calculateTotals_idempotent (m : List Cell) :
    calculateTotals ((calculateTotals m).1) = calculateTotals m := by
  rw [calculateTotals_fst, calculateTotals_map_updAmount]

theorem jsOrRat_zero (x : Option ℚ) : jsOrRat x 0 = x.getD 0 := by
  cases x with
  | none => rfl
  | some v => by_cases h : v = 0 <;> simp [jsOrRat, h]

theorem initCell_mem_initializeMatrix (lineItems : List LineItem)
    (teamMembers : List TeamMember) (recs : List ExistingCommissionRecord)
    (li : LineItem) (tm : TeamMember) (hli : li ∈ lineItems) (htm : tm ∈ teamMembers) :
    initCell recs li tm ∈ initializeMatrix lineItems teamMembers recs :=
  List.mem_flatMap.mpr ⟨li, hli, List.mem_map.mpr ⟨tm, htm, rfl⟩⟩

/-- C2: a (lineItem, teamMember) pair with a matching stored record yields a
cell that is selected, back-references the record's id, and carries the
record's persisted rate normalized by the magnitude heuristic: multiplied by
100 when the raw value is ≤ 1, kept unchanged otherwise.  (`hid` reflects
that a Salesforce record id is a nonempty string, which the `|| null`
coalescing in the source otherwise maps to null.) -/
theorem C2_reconciler_matched_record (lineItems : List LineItem)
    (teamMembers : List TeamMember) (recs : List ExistingCommissionRecord)
    (li : LineItem) (tm : TeamMember) (r : ExistingCommissionRecord) (p : ℚ)
    (hli : li ∈ lineItems) (htm : tm ∈ teamMembers)
    (hfind : findExistingCommission recs li.Id tm.userId = some r)
    (hp : r.Commission_Percentage__c = some p) (hid : r.Id ≠ "") :
    ∃ c ∈ initializeMatrix lineItems teamMembers recs,
      c.lineItemId = li.Id ∧ c.userId = tm.userId ∧ c.selected = true ∧
      c.existingCommissionId = some r.Id ∧
      c.percentage = if p ≤ 1 then p * 100 else p := by
  refine ⟨initCell recs li tm,
    initCell_mem_initializeMatrix lineItems teamMembers recs li tm hli htm,
    ?_, ?_, ?_, ?_, ?_⟩ <;>
  simp [initCell, hfind, hp, hid]

theorem C2_reconciler_matched_record_witness :
    (∃ c ∈ initializeMatrix [⟨"L1", "Widget", none, some 1000⟩]
        [⟨"U1", "Ann", "AE", some 10⟩] [⟨"R1", "L1", "U1", some 0.15⟩],
        c.selected = true ∧ c.existingCommissionId = some "R1" ∧ c.percentage = 15) ∧
    (∃ c ∈ initializeMatrix [⟨"L1", "Widget", none, some 1000⟩]
        [⟨"U1", "Ann", "AE", some 10⟩] [⟨"R1", "L1", "U1", some 15⟩],
        c.selected = true ∧ c.existingCommissionId = some "R1" ∧ c.percentage = 15) := by
  constructor
  · obtain ⟨c, hc, h1, h2, h3, h4, h5⟩ :=
      C2_reconciler_matched_record [⟨"L1", "Widget", none, some 1000⟩]
        [⟨"U1", "Ann", "AE", some 10⟩] [⟨"R1", "L1", "U1", some 0.15⟩]
        ⟨"L1", "Widget", none, some 1000⟩ ⟨"U1", "Ann", "AE", some 10⟩
        ⟨"R1", "L1", "U1", some 0.15⟩ 0.15
        (List.mem_singleton_self _) (List.mem_singleton_self _) rfl rfl (by decide)
    exact ⟨c, hc, h3, h4, by rw [h5]; norm_num⟩
  · obtain ⟨c, hc, h1, h2, h3, h4, h5⟩ :=
      C2_reconciler_matched_record [⟨"L1", "Widget", none, some 1000⟩]
        [⟨"U1", "Ann", "AE", some 10⟩] [⟨"R1", "L1", "U1", some 15⟩]
        ⟨"L1", "Widget", none, some 1000⟩ ⟨"U1", "Ann", "AE", some 10⟩
        ⟨"R1", "L1", "U1", some 15⟩ 15
        (List.mem_singleton_self _) (List.mem_singleton_self _) rfl rfl (by decide)
    exact ⟨c, hc, h3, h4, by rw [h5]; norm_num⟩

/-- C10: a (lineItem, teamMember) pair with a matching stored record whose
persisted percentage field is undefined still yields a selected cell
back-referencing the record, but its percentage falls back to the team
member's default rate (0 when that too is absent). -/
theorem C10_reconciler_matched_record_undefined_rate (lineItems : List LineItem)
    (teamMembers : List TeamMember) (recs : List ExistingCommissionRecord)
    (li : LineItem) (tm : TeamMember) (r : ExistingCommissionRecord)
    (hli : li ∈ lineItems) (htm : tm ∈ teamMembers)
    (hfind : findExistingCommission recs li.Id tm.userId = some r)
    (hp : r.Commission_Percentage__c = none) (hid : r.Id ≠ "") :
    ∃ c ∈ initializeMatrix lineItems teamMembers recs,
      c.lineItemId = li.Id ∧ c.userId = tm.userId ∧ c.selected = true ∧
      c.existingCommissionId = some r.Id ∧
      c.percentage = tm.defaultRate.getD 0 := by
  refine ⟨initCell recs li tm,
    initCell_mem_initializeMatrix lineItems teamMembers recs li tm hli htm,
    ?_, ?_, ?_, ?_, ?_⟩ <;>
  simp [initCell, hfind, hp, hid, jsOrRat_zero]

theorem C10_reconciler_matched_record_undefined_rate_witness :
    ∃ c ∈ initializeMatrix [⟨"L1", "Widget", none, some 1000⟩]
        [⟨"U1", "Ann", "AE", some 10⟩] [⟨"R1", "L1", "U1", none⟩],
      c.lineItemId = "L1" ∧ c.userId = "U1" ∧ c.selected = true ∧
      c.existingCommissionId = some "R1" ∧ c.percentage = (some (10 : ℚ)).getD 0 :=
  C10_reconciler_matched_record_undefined_rate [⟨"L1", "Widget", none, some 1000⟩]
    [⟨"U1", "Ann", "AE", some 10⟩] [⟨"R1", "L1", "U1", none⟩]
    ⟨"L1", "Widget", none, some 1000⟩ ⟨"U1", "Ann", "AE", some 10⟩
    ⟨"R1", "L1", "U1", none⟩
    (List.mem_singleton_self _) (List.mem_singleton_self _) rfl rfl (by decide)

theorem initializeMatrix_nil_cells (lineItems : List LineItem)
    (teamMembers : List TeamMember) :
    ∀ c ∈ initializeMatrix lineItems teamMembers [],
      c.selected = false ∧ c.existingCommissionId = none ∧
      ∃ tm ∈ teamMembers, c.userId = tm.userId ∧ c.percentage = tm.defaultRate.getD 0 := by
  intro c hc
  obtain ⟨li, hli, hc2⟩ := List.mem_flatMap.mp hc
  obtain ⟨tm, htm, rfl⟩ := List.mem_map.mp hc2
  refine ⟨?_, ?_, tm, htm, ?_, ?_⟩ <;>
  simp [initCell, findExistingCommission, jsOrRat_zero]

/-- C5: reconciling with an empty stored-record set builds the full dense
cross product — one cell per (lineItem, teamMember) pair — and every cell is
unselected, has no back-reference, and carries its team member's default
rate as percentage. -/
theorem C5_reconcile_empty_records (lineItems : List LineItem)
    (teamMembers : List TeamMember) :
    (initializeMatrix lineItems teamMembers []).length
        = lineItems.length * teamMembers.length ∧
    (∀ li ∈ lineItems, ∀ tm ∈ teamMembers,
       ∃ c ∈ initializeMatrix lineItems teamMembers [],
         c.lineItemId = li.Id ∧ c.userId = tm.userId ∧ c.selected = false ∧
         c.existingCommissionId = none ∧ c.percentage = tm.defaultRate.getD 0) ∧
    (∀ c ∈ initializeMatrix lineItems teamMembers [],
       c.selected = false ∧ c.existingCommissionId = none ∧
       ∃ tm ∈ teamMembers, c.userId = tm.userId ∧ c.percentage = tm.defaultRate.getD 0) := by
  refine ⟨?_, ?_, initializeMatrix_nil_cells lineItems teamMembers⟩
  · rw [initializeMatrix, List.length_flatMap]
    have h : (List.length ∘ fun li => List.map (fun tm => initCell [] li tm) teamMembers)
        = fun _ : LineItem => teamMembers.length := by
      funext li; simp
    rw [h, List.map_const', List.sum_replicate, smul_eq_mul]
  · intro li hli tm htm
    refine ⟨initCell [] li tm,
      initCell_mem_initializeMatrix lineItems teamMembers [] li tm hli htm,
      ?_, ?_, ?_, ?_, ?_⟩ <;>
    simp [initCell, findExistingCommission, jsOrRat_zero]

theorem C5_reconcile_empty_records_witness :
    (initializeMatrix [⟨"L1", "Widget", none, some 1000⟩]
        [⟨"U1", "Ann", "AE", some 10⟩] []).length = 1 ∧
    ∃ c ∈ initializeMatrix [⟨"L1", "Widget", none, some 1000⟩]
        [⟨"U1", "Ann", "AE", some 10⟩] [],
      c.lineItemId = "L1" ∧ c.userId = "U1" ∧ c.selected = false ∧
      c.existingCommissionId = none ∧ c.percentage = (some (10 : ℚ)).getD 0 := by
  obtain ⟨h1, h2, _⟩ := C5_reconcile_empty_records
    [⟨"L1", "Widget", none, some 1000⟩] [⟨"U1", "Ann", "AE", some 10⟩]
  exact ⟨h1, h2 ⟨"L1", "Widget", none, some 1000⟩ (List.mem_singleton_self _)
    ⟨"U1", "Ann", "AE", some 10⟩ (List.mem_singleton_self _)⟩

/-- C3: `selectAllForTeamMember(userId, checked)` sets `selected = checked` on
every cell of that user and, when `checked` is true, unconditionally
overwrites that cell's `percentage` with its `defaultPercentage` (even when
the prior percentage was nonzero); cells of a different user, and the grid's
length and ordering, are untouched.  (The recomputation pass that follows in
the handler is covered by the totals invariant.) -/
theorem C3_select_all_for_team_member (m : List Cell) (u : String) (b : Bool) :
    (selectAllForTeamMemberStep u b m).length = m.length ∧
    ∀ i : ℕ, (selectAllForTeamMemberStep u b m)[i]? =
      m[i]?.map fun c =>
        if c.userId = u then
          { c with
              selected := b
              percentage := if b then c.defaultPercentage else c.percentage }
        else c := by
  refine ⟨List.length_map _ _, ?_⟩
  intro i
  rw [selectAllForTeamMemberStep, List.getElem?_map]
  cases h : m[i]? with
  | none => rfl
  | some c => split_ifs <;> rfl

/-- C4: `selectAllForLineItem(lineItemId, checked)` sets `selected = checked`
on every cell of that line item and, when `checked` is true, applies the
cell's `defaultPercentage` only when its current `percentage` is exactly 0,
leaving any nonzero percentage alone; cells of a different line item, and
the grid's length and ordering, are untouched. -/
theorem C4_select_all_for_line_item (m : List Cell) (l : String) (b : Bool) :
    (selectAllForLineItemStep l b m).length = m.length ∧
    ∀ i : ℕ, (selectAllForLineItemStep l b m)[i]? =
      m[i]?.map fun c =>
        if c.lineItemId = l then
          { c with
              selected := b
              percentage := if b ∧ c.percentage = 0 then c.defaultPercentage
                            else c.percentage }
        else c := by
  refine ⟨List.length_map _ _, ?_⟩
  intro i
  rw [selectAllForLineItemStep, List.getElem?_map]
  cases h : m[i]? with
  | none => rfl
  | some c =>
    simp only [Option.map_some']
    split_ifs <;> rfl

/-- C8: on a well-formed grid — each cell's `id` is the
`lineItemId ++ "-" ++ userId` template string the Reconciler built, equal ids
mean equal keys, and the toggled key is present — `toggleCell` flips
`selected` on exactly the matching cell, changes no other field of it, and
leaves every other cell, the grid's length and its ordering unchanged. -/
theorem C8_toggle_cell_frame (m : List Cell) (l u : String) (b : Bool)
    (hwf : ∀ c ∈ m, c.id = c.lineItemId ++ "-" ++ c.userId)
    (hinj : ∀ c ∈ m, ∀ c' ∈ m, c.id = c'.id →
      c.lineItemId = c'.lineItemId ∧ c.userId = c'.userId)
    (hkey : ∃ c ∈ m, c.lineItemId = l ∧ c.userId = u) :
    (toggleCellStep l u b m).length = m.length ∧
    ∀ i : ℕ, (toggleCellStep l u b m)[i]? =
      m[i]?.map fun c =>
        if c.lineItemId = l ∧ c.userId = u then { c with selected := b } else c := by
  refine ⟨List.length_map _ _, ?_⟩
  intro i
  rw [toggleCellStep, List.getElem?_map]
  cases h : m[i]? with
  | none => rfl
  | some c =>
    have hcm : c ∈ m := List.getElem?_mem h
    have harms : (if c.id = l ++ "-" ++ u then { c with selected := b } else c)
        = (if c.lineItemId = l ∧ c.userId = u then { c with selected := b } else c) := by
      by_cases hc : c.lineItemId = l ∧ c.userId = u
      · have hcid : c.id = l ++ "-" ++ u := by rw [hwf c hcm, hc.1, hc.2]
        rw [if_pos hcid, if_pos hc]
      · have hcid : c.id ≠ l ++ "-" ++ u := by
          intro he
          obtain ⟨c₀, hc₀m, hl₀, hu₀⟩ := hkey
          have h₀ : c₀.id = l ++ "-" ++ u := by rw [hwf c₀ hc₀m, hl₀, hu₀]
          have hk := hinj c hcm c₀ hc₀m (he.trans h₀.symm)
          exact hc ⟨hk.1.trans hl₀, hk.2.trans hu₀⟩
        rw [if_neg hcid, if_neg hc]
    simp [harms]

theorem C8_toggle_cell_frame_witness :
    (toggleCellStep "L1" "U1" true
        (initializeMatrix [⟨"L1", "Widget", none, some 1000⟩, ⟨"L2", "Gadget", none, some 500⟩]
          [⟨"U1", "Ann", "AE", some 10⟩] [])).length =
      (initializeMatrix [⟨"L1", "Widget", none, some 1000⟩, ⟨"L2", "Gadget", none, some 500⟩]
          [⟨"U1", "Ann", "AE", some 10⟩] []).length ∧
    ∀ i : ℕ, (toggleCellStep "L1" "U1" true
        (initializeMatrix [⟨"L1", "Widget", none, some 1000⟩, ⟨"L2", "Gadget", none, some 500⟩]
          [⟨"U1", "Ann", "AE", some 10⟩] []))[i]? =
      (initializeMatrix [⟨"L1", "Widget", none, some 1000⟩, ⟨"L2", "Gadget", none, some 500⟩]
          [⟨"U1", "Ann", "AE", some 10⟩] [])[i]?.map fun c =>
        if c.lineItemId = "L1" ∧ c.userId = "U1" then { c with selected := true } else c :=
  C8_toggle_cell_frame _ "L1" "U1" true (by decide) (by decide) (by decide)

/-- C6: submission validates then projects: with zero selected cells it
surfaces the validation error and makes no backend call, and that is the
only failing case; otherwise it sends exactly the selected cells, in grid
order, projected to `{lineItemId, userId, selected, percentage, amount}`. -/
theorem C6_submission_projection (m : List Cell) :
    (handleGenerateCommissions m = SubmitAction.validationError ↔
      m.countP (fun c => c.selected) = 0) ∧
    (m.countP (fun c => c.selected) ≠ 0 →
      handleGenerateCommissions m =
        SubmitAction.submit ((m.filter fun c => c.selected).map toApexCell)) := by
  have hcount : m.countP (fun c => c.selected) = (m.filter fun c => c.selected).length :=
    List.countP_eq_length_filter _ _
  constructor
  · simp only [handleGenerateCommissions]
    by_cases hz : (m.filter fun c => c.selected).length = 0 <;> simp [hz, hcount]
  · intro hne
    simp only [handleGenerateCommissions]
    rw [if_neg (by rwa [hcount] at hne)]

theorem C6_submission_projection_witness :
    ([(⟨"L1-U1", "L1", "U1", "Widget", "Ann", "AE", 1000, true, 10, 10, 100, none⟩ : Cell)].countP
        (fun c => c.selected) ≠ 0) ∧
    handleGenerateCommissions
        [⟨"L1-U1", "L1", "U1", "Widget", "Ann", "AE", 1000, true, 10, 10, 100, none⟩] =
      SubmitAction.submit
        (([(⟨"L1-U1", "L1", "U1", "Widget", "Ann", "AE", 1000, true, 10, 10, 100, none⟩ : Cell)].filter
            fun c => c.selected).map toApexCell) :=
  ⟨by decide,
   (C6_submission_projection
      [⟨"L1-U1", "L1", "U1", "Widget", "Ann", "AE", 1000, true, 10, 10, 100, none⟩]).2
     (by decide)⟩

/-- C7: delete-and-recreate with a successful delete call clears the stored
records and re-runs the Reconciler (then the totals pass) on the empty
record set, so every rebuilt cell has no back-reference and is unselected;
when the delete call rejects, the whole component state — grid and stored
records included — is left unchanged and only an error toast is surfaced. -/
theorem C7_delete_and_recreate_reset (s : ComponentState) :
    ((handleDeleteAndRecreate true s).matrixData =
        (calculateTotals (initializeMatrix s.lineItems s.teamMembers [])).1 ∧
     (handleDeleteAndRecreate true s).existingCommissions = [] ∧
     ∀ c ∈ (handleDeleteAndRecreate true s).matrixData,
       c.existingCommissionId = none ∧ c.selected = false) ∧
    handleDeleteAndRecreate false s = s := by
  refine ⟨⟨rfl, rfl, ?_⟩, rfl⟩
  intro c hc
  have hmd : (handleDeleteAndRecreate true s).matrixData
      = (initializeMatrix s.lineItems s.teamMembers []).map updAmount :=
    calculateTotals_fst _
  rw [hmd] at hc
  obtain ⟨c₀, hc₀, rfl⟩ := List.mem_map.mp hc
  obtain ⟨hsel, hrec, -⟩ := initializeMatrix_nil_cells s.lineItems s.teamMembers c₀ hc₀
  exact ⟨hrec, hsel⟩

theorem C7_delete_and_recreate_reset_witness :
    handleDeleteAndRecreate false
        ⟨[⟨"L1", "Widget", none, some 1000⟩], [⟨"U1", "Ann", "AE", some 10⟩],
         [], [⟨"R1", "L1", "U1", some 15⟩], true, 0, 0, true⟩ =
      ⟨[⟨"L1", "Widget", none, some 1000⟩], [⟨"U1", "Ann", "AE", some 10⟩],
       [], [⟨"R1", "L1", "U1", some 15⟩], true, 0, 0, true⟩ ∧
    (handleDeleteAndRecreate true
        ⟨[⟨"L1", "Widget", none, some 1000⟩], [⟨"U1", "Ann", "AE", some 10⟩],
         [], [⟨"R1", "L1", "U1", some 15⟩], true, 0, 0, true⟩).existingCommissions = [] :=
  ⟨(C7_delete_and_recreate_reset _).2, (C7_delete_and_recreate_reset _).1.2.1⟩

end CommissionCreator
